import Mathlib

set_option maxRecDepth 4000

/-!
Verification development for the pydc-control repository.

The definitions below are a shallow embedding of the Python sources:
`pydc_control/data.py`, `pydc_control/docker_compose_utils.py`,
`pydc_control/commands.py` and `pydc_control/docker_utils.py`.
Python dicts are modelled as insertion-ordered association lists,
argparse namespaces as total functions `String → Bool` (a `getattr`
with default `False`), and external effects (subprocess calls, HTTP
polling, YAML reads) as oracle parameters.
-/

/-! ### Python dict primitives (insertion-ordered association lists) -/

/-- `d[k]`-style lookup: first binding wins (Python dicts have unique keys). -/
def dictGet {V : Type} (k : String) : List (String × V) → Option V
  | [] => none
  | (k2, v) :: rest => if k2 = k then some v else dictGet k rest

/-- `d[k] = v`: replace in place when the key exists (Python keeps the original
insertion position on re-assignment), append otherwise. -/
def dictInsert {V : Type} (k : String) (v : V) : List (String × V) → List (String × V)
  | [] => [(k, v)]
  | (k2, v2) :: rest => if k2 = k then (k, v) :: rest else (k2, v2) :: dictInsert k v rest

/-- `k in d` for dicts. -/
def dictContains {V : Type} (k : String) (d : List (String × V)) : Bool :=
  (dictGet k d).isSome

/-! ### Python string primitives -/

/-- Python `needle in haystack` on strings: substring containment. -/
def pyIn (needle haystack : String) : Bool :=
  decide (needle.toList <:+: haystack.toList)

/-- Python `s.startswith(pre)`. -/
def pyStartsWith (s pre : String) : Bool :=
  decide (pre.toList <+: s.toList)

/-- Python `str.splitlines()` restricted to `\n` line breaks: no trailing empty
line is produced for a trailing newline, and `"".splitlines() == []`. -/
def pySplitLinesAux : List Char → List Char → List String
  | [], [] => []
  | [], acc => [acc.reverse.asString]
  | c :: rest, acc =>
    if c = '\n' then acc.reverse.asString :: pySplitLinesAux rest []
    else pySplitLinesAux rest (c :: acc)

def pySplitLines (s : String) : List String :=
  pySplitLinesAux s.toList []

/-- Python `'\n'.join(lines)`. -/
def joinLines (lines : List String) : String :=
  String.intercalate "\n" lines

/-! ### Data model (`pydc_control/data.py`)

A service's underlying dict is modelled with one typed field per key the code
reads (`name`, `core`, `enable`, `disable`, `dynamic-options`,
`wait-for-ports`) plus `props` for the remaining pass-through keys.
`FlagVal.noneV` stands for an absent (or `None`) `enable`/`disable` key. -/

inductive FlagVal
  | noneV
  | boolV (b : Bool)
  | strV (s : String)
deriving DecidableEq

/-- Python truthiness of an `enable`/`disable` value: `False`, `None` and the
empty string are falsy. -/
def pyTruthyFlag : FlagVal → Bool
  | FlagVal.noneV => false
  | FlagVal.boolV b => b
  | FlagVal.strV s => decide (s ≠ "")

/-- The `{'enabled': ..., 'disabled': ...}` dict of one dynamic option;
`none` models an absent key (`dict.get` returning `None`). -/
structure DynValues where
  enabled : Option String
  disabled : Option String
deriving DecidableEq

/-- Python truthiness of `dict.get('enabled')`: `None` and `''` are falsy. -/
def pyTruthyOptStr : Option String → Bool
  | none => false
  | some s => decide (s ≠ "")

/-- A docker-compose property value: a string or a list of strings. -/
inductive DcVal
  | strV (s : String)
  | listV (l : List String)
deriving DecidableEq

/-- String interpolation of a `DcVal` into an f-string (`image_path` values are
strings in practice). -/
def dcValStr : DcVal → String
  | DcVal.strV s => s
  | DcVal.listV l => String.intercalate ", " l

/-- The dict passed to `Service.__init__` as `data`. -/
structure ServiceData where
  name : String
  core : Bool
  enable : FlagVal
  disable : FlagVal
  dynamic_options : List (String × DynValues)
  wait_for_ports : List (Nat × String)
  props : List (String × DcVal)
deriving DecidableEq

/-- `Service(project_name, data)` from `data.py`. -/
structure Service where
  project_name : String
  data : ServiceData
deriving DecidableEq

def Service.name (svc : Service) : String := svc.data.name

def Service.core (svc : Service) : Bool := svc.data.core

def Service.dynamic_options (svc : Service) : List (String × DynValues) :=
  svc.data.dynamic_options

def Service.wait_for_ports (svc : Service) : List (Nat × String) :=
  svc.data.wait_for_ports

/-- `Service.enable_flag`: `flag_value if flag_value else bool(flag_value)`. -/
def Service.enable_flag (svc : Service) : FlagVal :=
  if pyTruthyFlag svc.data.enable then svc.data.enable else FlagVal.boolV false

/-- `Service.disable_flag`: `flag_value if flag_value else bool(flag_value)`. -/
def Service.disable_flag (svc : Service) : FlagVal :=
  if pyTruthyFlag svc.data.disable then svc.data.disable else FlagVal.boolV false

/-- `Service.__eq__`: equality of `name` and `project_name`. -/
def svcEq (a b : Service) : Bool :=
  decide (a.name = b.name) && decide (a.project_name = b.project_name)

/-- `Project(name, data)` from `data.py`; `services_data` is `data['services']`. -/
structure Project where
  name : String
  directory : Option String
  repository : Option String
  services_data : List ServiceData
deriving DecidableEq

/-- `Project.services`: each entry is wrapped as `Service(self.name, service)`. -/
def Project.services (p : Project) : List Service :=
  p.services_data.map (fun d => Service.mk p.name d)

/-- `Service.find_all()` (no `core` filter): concatenate every project's
services. The project list stands for the cached `Project.find_all()`. -/
def Service.find_all (projects : List Project) : List Service :=
  projects.foldl (fun services p => services ++ p.services) []

/-- `Service.find_all(core=...)`: keep services with `core == service.core`. -/
def Service.find_all_core (projects : List Project) (core : Bool) : List Service :=
  projects.foldl
    (fun services p => services ++ p.services.filter (fun svc => core == svc.core)) []

/-- The static configuration consumed from `config.py`: the two container-name
prefixes and the docker-compose network name. -/
structure Cfg where
  core_pref : String
  service_pref : String
  network : String
deriving DecidableEq

/-- `Service.container_name`: prefix (`core` or `service`) plus the name. -/
def Service.container_name (cfg : Cfg) (svc : Service) : String :=
  (if svc.core then cfg.core_pref else cfg.service_pref) ++ svc.name

/-- `Service.dc_name` is the container name. -/
def Service.dc_name (cfg : Cfg) (svc : Service) : String :=
  svc.container_name cfg

/-- `enabled_status_by_service.get(service, True)`: dict lookup keyed by
`Service.__eq__`, defaulting to `True`. -/
def statusGet (m : List (Service × Bool)) (svc : Service) : Bool :=
  match m with
  | [] => true
  | (k, v) :: rest => if svcEq k svc then v else statusGet rest svc

/-! ### `_set_dynamic_options` (`docker_compose_utils.py`, lines 46-101) -/

/-- The `services_by_dynamic_option` dict: for every service of `find_all()`,
each of its dynamic-option keys maps to that service (last writer wins). -/
def services_by_dynamic_option (projects : List Project) : List (String × Service) :=
  (Service.find_all projects).foldl
    (fun d svc => svc.dynamic_options.foldl (fun d2 kv => dictInsert kv.1 svc d2) d) []

/-- The mutable state of `_set_dynamic_options`' line loop. -/
structure RecState where
  new_contents : List String
  lines_changed : Bool
  seen : List (String × Bool)
deriving DecidableEq

/-- One iteration of `for option, service in services_by_dynamic_option.items()`
inside the line loop; the `Bool` component is `option_considered`. -/
def processLineOption (status : List (Service × Bool)) (line : String)
    (acc : RecState × Bool) (entry : String × Service) : RecState × Bool :=
  let st := acc.1
  let considered := acc.2
  let option := entry.1
  let svc := entry.2
  if pyIn option line = false then (st, considered)
  else
    let st := { st with seen := dictInsert option true st.seen }
    -- `service.dynamic_options[option]` is present by construction of the dict
    let dynVals := (dictGet option svc.dynamic_options).getD ⟨none, none⟩
    let value := if statusGet status svc then dynVals.enabled else dynVals.disabled
    if pyTruthyOptStr value then
      let newLine := option ++ "=" ++ value.getD ""
      if line ≠ newLine then
        ({ st with new_contents := st.new_contents ++ [newLine], lines_changed := true }, true)
      else
        (st, true)
    else
      ({ st with lines_changed := true }, true)

/-- One iteration of `for line in env_file_contents.splitlines()`: run every
dynamic-option entry over the line, then append the line itself when no
option was considered. -/
def lineStep (entries : List (String × Service)) (status : List (Service × Bool))
    (st : RecState) (line : String) : RecState :=
  let result := entries.foldl (processLineOption status line) (st, false)
  if result.2 then result.1
  else { result.1 with new_contents := result.1.new_contents ++ [line] }

/-- The trailing loop of `_set_dynamic_options`: append `option=value` for
every dynamic option never seen whose target value is truthy. -/
def addUnseenOption (status : List (Service × Bool)) (st : RecState)
    (entry : String × Service) : RecState :=
  if (dictGet entry.1 st.seen).getD false then st
  else
    let dynVals := (dictGet entry.1 entry.2.dynamic_options).getD ⟨none, none⟩
    let value := if statusGet status entry.2 then dynVals.enabled else dynVals.disabled
    if pyTruthyOptStr value then
      { st with new_contents := st.new_contents ++ [entry.1 ++ "=" ++ value.getD ""],
                lines_changed := true }
    else st

/-- `_set_dynamic_options` on the file's line list: returns `new_contents`
and `lines_changed`. -/
def set_dynamic_options_lines (projects : List Project) (status : List (Service × Bool))
    (lines : List String) : List String × Bool :=
  let entries := services_by_dynamic_option projects
  let seen0 := entries.foldl (fun d e => dictInsert e.1 false d) []
  let st0 : RecState := ⟨[], false, seen0⟩
  let st1 := lines.foldl (lineStep entries status) st0
  let st2 := entries.foldl (addUnseenOption status) st1
  (st2.new_contents, st2.lines_changed)

/-- `_set_dynamic_options` as a transformation of the env file's contents:
the file is rewritten as `'\n'.join(new_contents)` only when a line changed. -/
def set_dynamic_options (projects : List Project) (status : List (Service × Bool))
    (contents : String) : String :=
  let result := set_dynamic_options_lines projects status (pySplitLines contents)
  if result.2 then joinLines result.1 else contents

/-! ### `Service.is_enabled` (`data.py`, lines 88-116) -/

/-- `Service._get_flag_name`: `f'{prefix}_{flag_value}'` when the flag value is
a string, `f'{prefix}_{self.name}'` otherwise. -/
def Service.get_flag_name (svc : Service) (flag_value : FlagVal) (pre : String) : String :=
  match flag_value with
  | FlagVal.strV s => pre ++ "_" ++ s
  | _ => pre ++ "_" ++ svc.name

/-- `Service._get_flag_value`: `False` for a falsy flag value, otherwise
`(arg_value and not reverse) or (not arg_value and reverse)` where `arg_value`
is `getattr(args, flag_name, False)`. `args` models the parsed namespace as a
total map from attribute name to the boolean flag value (absent = `False`). -/
def Service.get_flag_value (svc : Service) (args : String → Bool) (flag_value : FlagVal)
    (pre : String) (reverse : Bool) : Bool :=
  if pyTruthyFlag flag_value = false then false
  else
    let argValue := args (svc.get_flag_name flag_value pre)
    (argValue && !reverse) || (!argValue && reverse)

/-- `Service.is_enabled`. -/
def Service.is_enabled (svc : Service) (args : String → Bool) : Bool :=
  if pyTruthyFlag svc.enable_flag = false && pyTruthyFlag svc.disable_flag = false then
    true
  else
    let isEn := svc.get_flag_value args svc.enable_flag "enable" false
    let isNotDis := svc.get_flag_value args svc.disable_flag "disable" true
    isEn || isNotDis

/-! ### `Service.get_dc_data` and `_generate_docker_compose`
(`data.py` lines 71-86, `docker_compose_utils.py` lines 141-173) -/

/-- The keys `get_dc_data` ignores. -/
def reservedKeys : List String :=
  ["name", "core", "enable", "disable", "dynamic-options", "wait-for-ports"]

/-- One iteration of `for key, value in self.data.items()` in `get_dc_data`:
ignore reserved keys, interpolate `image_path` into `image`, pass everything
else through. -/
def dcDataStep (registry tag : String) (d : List (String × DcVal))
    (kv : String × DcVal) : List (String × DcVal) :=
  if reservedKeys.contains kv.1 then d
  else if kv.1 = "image_path" then
    dictInsert "image" (DcVal.strV (registry ++ dcValStr kv.2 ++ ":" ++ tag)) d
  else dictInsert kv.1 kv.2 d

/-- `Service.get_dc_data`: start from `{'container_name': ...}`, copy every
non-reserved key, interpolating `image_path` into a fully qualified `image`. -/
def Service.get_dc_data (cfg : Cfg) (svc : Service) (registry tag : String) :
    List (String × DcVal) :=
  svc.data.props.foldl (dcDataStep registry tag)
    [("container_name", DcVal.strV (svc.container_name cfg))]

/-- One service's entry in the generated document
(`docker_compose_utils.py` lines 153-158): `get_dc_data` plus the default
`env_file` and `networks` values when those keys are absent. -/
def build_entry (cfg : Cfg) (svc : Service) (registry tag : String) :
    List (String × DcVal) :=
  let data := svc.get_dc_data cfg registry tag
  let data :=
    if dictContains "env_file" data then data
    else dictInsert "env_file" (DcVal.listV ["./docker-compose.env"]) data
  if dictContains "networks" data then data
  else dictInsert "networks" (DcVal.listV [cfg.network]) data

/-- Modelled from the spec: the `enable` attribute that
`_generate_docker_compose` reads on a service (`docker_compose_utils.py` line
151). The `Service` class in `data.py` defines no `enable` attribute; per the
spec a service carries "an `enable`/`disable` flag", truthy exactly when the
flag is configured. -/
def Service.enableAttr (svc : Service) : Bool :=
  pyTruthyFlag svc.data.enable

/-- Modelled from the spec: the `disable` attribute that
`_generate_docker_compose` reads on a service (`docker_compose_utils.py` line
151), absent from the `Service` class in `data.py`; truthy exactly when the
`disable` flag is configured. -/
def Service.disableAttr (svc : Service) : Bool :=
  pyTruthyFlag svc.data.disable

/-- The `services` mapping built by `_generate_docker_compose` (lines 145-159):
skip dev projects by name; within the rest, skip enable/disable-gated services
whose resolved status is false; key each entry by `dc_name`. -/
def generate_services (cfg : Cfg) (projects : List Project)
    (dev_project_names : List String) (status : List (Service × Bool))
    (registry tag : String) : List (String × List (String × DcVal)) :=
  projects.foldl
    (fun services project =>
      if dev_project_names.contains project.name then services
      else
        project.services.foldl
          (fun services svc =>
            if (svc.enableAttr || svc.disableAttr) && !(statusGet status svc) then services
            else dictInsert (svc.dc_name cfg) (build_entry cfg svc registry tag) services)
          services)
    []

/-! ### `_run_docker_compose_with_projects` (`commands.py`, lines 47-116)

The function is modelled as the sequence of external steps it performs: each
`docker-compose` invocation and each readiness wait applied to a core service.
Exit codes are assumed zero (a nonzero code only truncates the sequence), and
`read_services_from_dc` is an oracle from file path to declared service names. -/

inductive DcStep
  | invoke (cmd : List String)
  | waitForPorts (svc : Service)
deriving DecidableEq

/-- The guard of the staged branch (`commands.py` line 58):
`'up' in docker_compose_args and all(arg.startswith('-') or arg == 'up' ...)`. -/
def stagedUpCheck (docker_compose_args : List String) : Bool :=
  docker_compose_args.contains "up"
    && docker_compose_args.all (fun arg => pyStartsWith arg "-" || arg == "up")

/-- The base command list (`commands.py` lines 51-55): fixed project name, the
shared document, each dev project's document, then the pass-through args.
`projectPath` abstracts `os.path.join(project.path, DOCKER_COMPOSE_FILE)`. -/
def baseComposeCommands (dcProject dcPath : String) (dev_projects : List Project)
    (projectPath : Project → String) (docker_compose_args : List String) : List String :=
  ["docker-compose", "-p", dcProject] ++ ["-f", dcPath]
    ++ dev_projects.foldl (fun acc p => acc ++ ["-f", projectPath p]) []
    ++ docker_compose_args

/-- `_run_docker_compose_with_projects` as its sequence of external steps. -/
def run_docker_compose_with_projects (cfg : Cfg) (dcProject dcPath : String)
    (projects dev_projects : List Project) (projectPath : Project → String)
    (args : String → Bool) (docker_compose_args : List String)
    (readServices : String → List String) : List DcStep :=
  let commands := baseComposeCommands dcProject dcPath dev_projects projectPath
    docker_compose_args
  if stagedUpCheck docker_compose_args then
    let core_commands :=
      if !(commands.contains "--detach") && !(commands.contains "-d") then
        commands ++ ["--detach"]
      else commands
    let core_services :=
      (Service.find_all_core projects true).filter (fun svc => svc.is_enabled args)
    let core_service_names := core_services.map (fun svc => svc.dc_name cfg)
    let waitSteps := core_services.map DcStep.waitForPorts
    if !dev_projects.isEmpty then
      let base_commands :=
        if !(commands.contains "--detach") && !(commands.contains "-d") then
          commands ++ ["--detach"]
        else commands
      let base_services :=
        (readServices dcPath).filter (fun s => !(core_service_names.contains s))
      let finalCommands :=
        commands ++ dev_projects.foldl (fun acc p => acc ++ readServices (projectPath p)) []
      DcStep.invoke (core_commands ++ core_service_names)
        :: waitSteps
        ++ [DcStep.invoke (base_commands ++ base_services), DcStep.invoke finalCommands]
    else
      let all_services :=
        (readServices dcPath).filter (fun s => !(core_service_names.contains s))
      DcStep.invoke (core_commands ++ core_service_names)
        :: waitSteps
        ++ [DcStep.invoke (commands ++ all_services)]
  else
    [DcStep.invoke commands]

/-! ### The readiness polling loops
(`docker_utils.check_port` lines 74-83, `commands._wait_for_open_ports`
lines 21-39)

Each loop is given fuel; exhausting any fuel yields `none`, meaning the loop
has not returned within that many iterations. A loop that returns `none` for
every fuel never terminates. Oracles stand for the polled effects: the HTTP
health check, `docker port` listings, and raw TCP connection attempts. -/

/-- `check_port`'s `while not _is_path_responding(port, path)` loop;
`responding n` is the n-th poll's outcome, the result is the attempt index at
which the loop exited. -/
def checkPortLoop (responding : Nat → Bool) : Nat → Nat → Option Nat
  | 0, _ => none
  | fuel + 1, attempt =>
    if responding attempt then some attempt
    else checkPortLoop responding fuel (attempt + 1)

/-- The inner `while not docker_utils.is_port_open(host_port)` loop of
`_wait_for_open_ports`; `portOpen port n` is the n-th connection attempt. -/
def waitPortLoop (portOpen : Nat → Nat → Bool) (port : Nat) : Nat → Nat → Option Nat
  | 0, _ => none
  | fuel + 1, attempt =>
    if portOpen port attempt then some attempt
    else waitPortLoop portOpen port fuel (attempt + 1)

/-- The `for container_port, host_port in open_ports.items()` loop: block on
each listed host port in turn. -/
def waitPortsList (portOpen : Nat → Nat → Bool) :
    List (Nat × Nat) → Nat → Option Unit
  | [], _ => some ()
  | (_, hostPort) :: rest, fuel =>
    match waitPortLoop portOpen hostPort fuel 0 with
    | none => none
    | some _ => waitPortsList portOpen rest fuel

/-- The outer `while not open_ports` loop of `_wait_for_open_ports`:
`getOpenPorts t` is the t-th `docker port` listing (container port, host
port); on a non-empty listing, wait for every listed host port. -/
def waitForOpenPortsLoop (getOpenPorts : Nat → List (Nat × Nat))
    (portOpen : Nat → Nat → Bool) : Nat → Nat → Option (List (Nat × Nat))
  | 0, _ => none
  | fuel + 1, callIdx =>
    let openPorts := getOpenPorts callIdx
    if openPorts.isEmpty then
      waitForOpenPortsLoop getOpenPorts portOpen fuel (callIdx + 1)
    else
      match waitPortsList portOpen openPorts fuel with
      | none => none
      | some _ => some openPorts

/-! ### `init_docker_compose` (`docker_compose_utils.py`, lines 191-202)

The attribute table of the `Service` class as defined in `data.py`, and the
pipeline of `init_docker_compose` as the trace of steps it reaches. Python
resolves `Service.find_enabled` against that table before anything in the
loop body runs; a miss raises `AttributeError`. The three booleans are oracles
for the outcomes of the preliminary external checks. -/

/-- Every attribute the `Service` class body in `data.py` defines. -/
def serviceClassAttrs : List String :=
  ["__init__", "__eq__", "__hash__", "name", "container_name", "dc_name",
   "enable_flag", "disable_flag", "core", "dynamic_options", "wait_for_ports",
   "get_dc_data", "_get_flag_name", "_get_flag_value", "is_enabled",
   "find_all", "find_one", "find_config", "find_has_enable_flag",
   "find_has_disable_flag"]

inductive PyErr
  | attributeError (cls attr : String)
  | knownException (msg : String)
deriving DecidableEq

inductive InitStep
  | checkDockerNetwork
  | checkProjectDirectories
  | checkRequiredOptions
  | setDynamicOptionsStep
  | linkConfigStep
  | generateDockerComposeStep
deriving DecidableEq

/-- `init_docker_compose`: the steps reached, and the error it raises (if
any). The enabled-status loops resolve `Service.find_enabled` and
`Service.find_disabled` against the class attribute table before
`_set_dynamic_options` (line 200) or `_generate_docker_compose` (line 202)
can run. -/
def init_docker_compose (networkOk dirsOk optionsOk : Bool) :
    List InitStep × Option PyErr :=
  if !networkOk then
    ([InitStep.checkDockerNetwork], some (PyErr.knownException "docker network failure"))
  else if !dirsOk then
    ([InitStep.checkDockerNetwork, InitStep.checkProjectDirectories],
     some (PyErr.knownException "project directory missing"))
  else if !optionsOk then
    ([InitStep.checkDockerNetwork, InitStep.checkProjectDirectories,
      InitStep.checkRequiredOptions],
     some (PyErr.knownException "env file or required option missing"))
  else if !(serviceClassAttrs.contains "find_enabled") then
    ([InitStep.checkDockerNetwork, InitStep.checkProjectDirectories,
      InitStep.checkRequiredOptions],
     some (PyErr.attributeError "Service" "find_enabled"))
  else if !(serviceClassAttrs.contains "find_disabled") then
    ([InitStep.checkDockerNetwork, InitStep.checkProjectDirectories,
      InitStep.checkRequiredOptions],
     some (PyErr.attributeError "Service" "find_disabled"))
  else
    ([InitStep.checkDockerNetwork, InitStep.checkProjectDirectories,
      InitStep.checkRequiredOptions, InitStep.setDynamicOptionsStep,
      InitStep.linkConfigStep, InitStep.generateDockerComposeStep],
     none)

/-! ### Concrete configurations for the reconciler counterexamples -/

/-- One always-enabled service owning two dynamic options `A` (target `1`)
and `B` (target `2`). -/
def twoOptServiceData : ServiceData :=
  { name := "dyn", core := false, enable := FlagVal.noneV, disable := FlagVal.noneV,
    dynamic_options := [("A", ⟨some "1", none⟩), ("B", ⟨some "2", none⟩)],
    wait_for_ports := [], props := [] }

def twoOptProjects : List Project :=
  [⟨"p1", some "p1", some "r1", [twoOptServiceData]⟩]

/-- One always-enabled service owning the single dynamic option `A`
(target `1`). -/
def oneOptServiceData : ServiceData :=
  { name := "dynA", core := false, enable := FlagVal.noneV, disable := FlagVal.noneV,
    dynamic_options := [("A", ⟨some "1", none⟩)],
    wait_for_ports := [], props := [] }

def oneOptProjects : List Project :=
  [⟨"p1", some "p1", some "r1", [oneOptServiceData]⟩]

def svcDynA : Service := ⟨"p1", oneOptServiceData⟩

/-- C1 (code_bug): the Dynamic Environment Reconciler is not idempotent. With
dynamic options `A` (target `1`) and `B` (target `2`) and the env file `A=1`,
the first application drops the already-correct `A=1` line while appending
`B=2`, producing `B=2`; the second application then drops `B=2` and re-appends
`A=1`, so the second application changes the file contents (and the contents
oscillate forever). -/
theorem c1_reconciler_not_idempotent :
    set_dynamic_options twoOptProjects [] "A=1" = "B=2"
    ∧ set_dynamic_options twoOptProjects []
        (set_dynamic_options twoOptProjects [] "A=1") = "A=1"
    ∧ set_dynamic_options twoOptProjects []
        (set_dynamic_options twoOptProjects [] "A=1")
      ≠ set_dynamic_options twoOptProjects [] "A=1" := by
  refine ⟨by decide, by decide, by decide⟩

/-- C3 (code_bug): a dynamic-option line already equal to its target is not
preserved. On the env file `X=5` + `A=1` (with `A=1` already equal to its
target) the reconciler appends the missing `B=2`, which marks the file changed,
and the rewritten contents omit the already-correct `A=1` line entirely. -/
theorem c3_already_correct_line_dropped :
    set_dynamic_options twoOptProjects [] "X=5\nA=1" = "X=5\nB=2"
    ∧ (pySplitLines (set_dynamic_options twoOptProjects [] "X=5\nA=1")).contains "A=1"
        = false := by
  refine ⟨by decide, by decide⟩

/-- C2 (counterexample): option-token matching is substring containment, not a
`TOKEN=` prefix match. The line `BA=2` does not start with `A=`, yet the
reconciler treats it as assigning the dynamic option `A`: the line is consumed
and replaced by `A=1` instead of being passed through. -/
theorem c2_containment_counterexample :
    pyIn "A" "BA=2" = true
    ∧ pyStartsWith "BA=2" ("A" ++ "=") = false
    ∧ set_dynamic_options_lines oneOptProjects [] ["BA=2"] = (["A=1"], true)
    ∧ set_dynamic_options oneOptProjects [] "BA=2" = "A=1" := by
  refine ⟨by decide, by decide, by decide, by decide⟩

/-! ### Lemmas on the polling loops -/

theorem checkPortLoop_some_responding (responding : Nat → Bool) :
    ∀ fuel attempt n, checkPortLoop responding fuel attempt = some n →
      responding n = true := by
  intro fuel
  induction fuel with
  | zero => intro attempt n h; simp [checkPortLoop] at h
  | succ fuel ih =>
    intro attempt n h
    unfold checkPortLoop at h
    by_cases hr : responding attempt = true
    · simp [hr] at h
      subst h
      exact hr
    · simp [Bool.not_eq_true] at hr
      simp [hr] at h
      exact ih (attempt + 1) n h

theorem checkPortLoop_none_of_never (responding : Nat → Bool)
    (h : ∀ n, responding n = false) :
    ∀ fuel attempt, checkPortLoop responding fuel attempt = none := by
  intro fuel
  induction fuel with
  | zero => intro attempt; simp [checkPortLoop]
  | succ fuel ih => intro attempt; simp [checkPortLoop, h, ih]

theorem waitPortLoop_some_open (portOpen : Nat → Nat → Bool) (port : Nat) :
    ∀ fuel attempt n, waitPortLoop portOpen port fuel attempt = some n →
      portOpen port n = true := by
  intro fuel
  induction fuel with
  | zero => intro attempt n h; simp [waitPortLoop] at h
  | succ fuel ih =>
    intro attempt n h
    unfold waitPortLoop at h
    by_cases hr : portOpen port attempt = true
    · simp [hr] at h
      subst h
      exact hr
    · simp [Bool.not_eq_true] at hr
      simp [hr] at h
      exact ih (attempt + 1) n h

theorem waitPortsList_some_all_open (portOpen : Nat → Nat → Bool) :
    ∀ (ports : List (Nat × Nat)) fuel,
      waitPortsList portOpen ports fuel = some () →
      ∀ p ∈ ports, ∃ a, portOpen p.2 a = true := by
  intro ports
  induction ports with
  | nil => intro fuel _ p hp; exact absurd hp (List.not_mem_nil p)
  | cons q rest ih =>
    intro fuel h p hp
    unfold waitPortsList at h
    rcases hw : waitPortLoop portOpen q.2 fuel 0 with _ | a
    · rw [hw] at h; exact absurd h (by simp)
    · rw [hw] at h
      rcases List.mem_cons.mp hp with hq | hrest
      · subst hq
        exact ⟨a, waitPortLoop_some_open portOpen p.2 fuel 0 a hw⟩
      · exact ih fuel h p hrest

theorem waitForOpenPortsLoop_some (getOpenPorts : Nat → List (Nat × Nat))
    (portOpen : Nat → Nat → Bool) :
    ∀ fuel callIdx ports,
      waitForOpenPortsLoop getOpenPorts portOpen fuel callIdx = some ports →
      ports ≠ [] ∧ (∃ t, getOpenPorts t = ports)
        ∧ ∀ p ∈ ports, ∃ a, portOpen p.2 a = true := by
  intro fuel
  induction fuel with
  | zero => intro callIdx ports h; simp [waitForOpenPortsLoop] at h
  | succ fuel ih =>
    intro callIdx ports h
    unfold waitForOpenPortsLoop at h
    by_cases he : (getOpenPorts callIdx).isEmpty = true
    · simp only [he, if_true] at h
      exact ih (callIdx + 1) ports h
    · simp only [he, if_false, Bool.false_eq_true] at h
      rcases hw : waitPortsList portOpen (getOpenPorts callIdx) fuel with _ | u
      · rw [hw] at h; exact absurd h (by simp)
      · rw [hw] at h
        have hports : getOpenPorts callIdx = ports := by
          cases h; rfl
        subst hports
        refine ⟨?_, ⟨callIdx, rfl⟩, ?_⟩
        · intro hnil
          rw [hnil] at he
          exact he rfl
        · cases u
          exact waitPortsList_some_all_open portOpen (getOpenPorts callIdx) fuel hw

theorem waitForOpenPortsLoop_none_of_empty (getOpenPorts : Nat → List (Nat × Nat))
    (portOpen : Nat → Nat → Bool) (h : ∀ t, getOpenPorts t = []) :
    ∀ fuel callIdx, waitForOpenPortsLoop getOpenPorts portOpen fuel callIdx = none := by
  intro fuel
  induction fuel with
  | zero => intro callIdx; simp [waitForOpenPortsLoop]
  | succ fuel ih => intro callIdx; simp [waitForOpenPortsLoop, h, ih]

/-- C9: the readiness polling loops have no timeout or iteration bound.
`check_port`'s loop returns only at an attempt whose HTTP health check
succeeded, and returns `none` at every fuel (never terminates) when no poll
ever succeeds; `_wait_for_open_ports`' outer loop returns only a non-empty
port listing all of whose host ports accepted a connection, and returns `none`
at every fuel when the listing stays empty forever. -/
theorem c9_polling_loops_wait_forever (responding : Nat → Bool)
    (getOpenPorts : Nat → List (Nat × Nat)) (portOpen : Nat → Nat → Bool) :
    (∀ fuel attempt n, checkPortLoop responding fuel attempt = some n →
      responding n = true)
    ∧ ((∀ n, responding n = false) →
      ∀ fuel attempt, checkPortLoop responding fuel attempt = none)
    ∧ (∀ fuel callIdx ports,
        waitForOpenPortsLoop getOpenPorts portOpen fuel callIdx = some ports →
        ports ≠ [] ∧ (∃ t, getOpenPorts t = ports)
          ∧ ∀ p ∈ ports, ∃ a, portOpen p.2 a = true)
    ∧ ((∀ t, getOpenPorts t = []) →
      ∀ fuel callIdx, waitForOpenPortsLoop getOpenPorts portOpen fuel callIdx = none) := by
  exact ⟨checkPortLoop_some_responding responding,
    fun h => checkPortLoop_none_of_never responding h,
    waitForOpenPortsLoop_some getOpenPorts portOpen,
    fun h => waitForOpenPortsLoop_none_of_empty getOpenPorts portOpen h⟩

/-- Witness for C9 at concrete oracles: a health check that never succeeds and
a port listing that stays empty keep both loops returning `none`. -/
theorem c9_polling_loops_witness :
    checkPortLoop (fun _ => false) 5 0 = none
    ∧ waitForOpenPortsLoop (fun _ => []) (fun _ _ => false) 5 0 = none := by
  refine ⟨?_, ?_⟩
  · exact (c9_polling_loops_wait_forever (fun _ => false) (fun _ => [])
      (fun _ _ => false)).2.1 (fun _ => rfl) 5 0
  · exact (c9_polling_loops_wait_forever (fun _ => false) (fun _ => [])
      (fun _ _ => false)).2.2.2 (fun _ => rfl) 5 0

/-- C10: `init_docker_compose` never reaches `_set_dynamic_options` or
`_generate_docker_compose`. For every outcome of the three preliminary checks
the pipeline ends in an error, and when all checks pass the error is the
`AttributeError` for `Service.find_enabled`; the `Service` class defines
neither `find_enabled`, `find_disabled`, `enable` nor `disable`, but does
define `find_has_enable_flag`, `find_has_disable_flag`, `enable_flag` and
`disable_flag`. -/
theorem c10_init_docker_compose_attribute_error :
    ∀ networkOk dirsOk optionsOk : Bool,
      ((init_docker_compose networkOk dirsOk optionsOk).1.contains
          InitStep.setDynamicOptionsStep) = false
      ∧ ((init_docker_compose networkOk dirsOk optionsOk).1.contains
          InitStep.generateDockerComposeStep) = false
      ∧ ((init_docker_compose networkOk dirsOk optionsOk).2.isSome) = true
      ∧ (init_docker_compose true true true).2
          = some (PyErr.attributeError "Service" "find_enabled")
      ∧ serviceClassAttrs.contains "find_enabled" = false
      ∧ serviceClassAttrs.contains "find_disabled" = false
      ∧ serviceClassAttrs.contains "enable" = false
      ∧ serviceClassAttrs.contains "disable" = false
      ∧ serviceClassAttrs.contains "find_has_enable_flag" = true
      ∧ serviceClassAttrs.contains "find_has_disable_flag" = true
      ∧ serviceClassAttrs.contains "enable_flag" = true
      ∧ serviceClassAttrs.contains "disable_flag" = true := by
  intro networkOk dirsOk optionsOk
  cases networkOk <;> cases dirsOk <;> cases optionsOk <;> exact (by decide)

/-! ### Lemmas on `Service.is_enabled` -/

theorem truthy_enable_flag (svc : Service) :
    pyTruthyFlag svc.enable_flag = pyTruthyFlag svc.data.enable := by
  unfold Service.enable_flag
  split
  · rfl
  · next h =>
    rw [Bool.not_eq_true] at h
    rw [h]
    rfl

theorem truthy_disable_flag (svc : Service) :
    pyTruthyFlag svc.disable_flag = pyTruthyFlag svc.data.disable := by
  unfold Service.disable_flag
  split
  · rfl
  · next h =>
    rw [Bool.not_eq_true] at h
    rw [h]
    rfl

theorem enable_flag_strV_truthy (svc : Service) (s : String)
    (h : svc.enable_flag = FlagVal.strV s) : pyTruthyFlag svc.enable_flag = true := by
  rw [truthy_enable_flag]
  unfold Service.enable_flag at h
  split at h
  · next ht => exact ht
  · exact absurd h (by simp)

theorem disable_flag_strV_truthy (svc : Service) (s : String)
    (h : svc.disable_flag = FlagVal.strV s) : pyTruthyFlag svc.disable_flag = true := by
  rw [truthy_disable_flag]
  unfold Service.disable_flag at h
  split at h
  · next ht => exact ht
  · exact absurd h (by simp)

theorem is_enabled_neither (svc : Service) (args : String → Bool)
    (hE : pyTruthyFlag svc.enable_flag = false)
    (hD : pyTruthyFlag svc.disable_flag = false) : svc.is_enabled args = true := by
  unfold Service.is_enabled
  simp [hE, hD]

theorem is_enabled_enable_only (svc : Service) (args : String → Bool)
    (hE : pyTruthyFlag svc.enable_flag = true)
    (hD : pyTruthyFlag svc.disable_flag = false) :
    svc.is_enabled args = args (svc.get_flag_name svc.enable_flag "enable") := by
  unfold Service.is_enabled Service.get_flag_value
  simp [hE, hD]

theorem is_enabled_disable_only (svc : Service) (args : String → Bool)
    (hE : pyTruthyFlag svc.enable_flag = false)
    (hD : pyTruthyFlag svc.disable_flag = true) :
    svc.is_enabled args = !args (svc.get_flag_name svc.disable_flag "disable") := by
  unfold Service.is_enabled Service.get_flag_value
  simp [hE, hD]

/-- C4: with at most one of enable/disable configured, `is_enabled` returns
true when neither is configured; with only `enable` configured it returns the
flag named `enable_<token>` for a string token and `enable_<service name>`
otherwise (so services sharing a token resolve identically); with only
`disable` configured it returns the negation of the corresponding flag. -/
theorem c4_is_enabled_single_flag (svc : Service) (args : String → Bool) :
    (pyTruthyFlag svc.enable_flag = false → pyTruthyFlag svc.disable_flag = false →
      svc.is_enabled args = true)
    ∧ (∀ s, pyTruthyFlag svc.disable_flag = false → svc.enable_flag = FlagVal.strV s →
      svc.is_enabled args = args ("enable" ++ "_" ++ s))
    ∧ (pyTruthyFlag svc.disable_flag = false → svc.enable_flag = FlagVal.boolV true →
      svc.is_enabled args = args ("enable" ++ "_" ++ svc.name))
    ∧ (∀ s, pyTruthyFlag svc.enable_flag = false → svc.disable_flag = FlagVal.strV s →
      svc.is_enabled args = !args ("disable" ++ "_" ++ s))
    ∧ (pyTruthyFlag svc.enable_flag = false → svc.disable_flag = FlagVal.boolV true →
      svc.is_enabled args = !args ("disable" ++ "_" ++ svc.name))
    ∧ (∀ (svc2 : Service) (s : String),
        pyTruthyFlag svc.disable_flag = false → pyTruthyFlag svc2.disable_flag = false →
        svc.enable_flag = FlagVal.strV s → svc2.enable_flag = FlagVal.strV s →
        svc.is_enabled args = svc2.is_enabled args) := by
  refine ⟨?_, ?_, ?_, ?_, ?_, ?_⟩
  · intro hE hD
    exact is_enabled_neither svc args hE hD
  · intro s hD hE
    rw [is_enabled_enable_only svc args (enable_flag_strV_truthy svc s hE) hD, hE]
    rfl
  · intro hD hE
    rw [is_enabled_enable_only svc args (by rw [hE]; rfl) hD, hE]
    rfl
  · intro s hE hD
    rw [is_enabled_disable_only svc args hE (disable_flag_strV_truthy svc s hD), hD]
    rfl
  · intro hE hD
    rw [is_enabled_disable_only svc args hE (by rw [hD]; rfl), hD]
    rfl
  · intro svc2 s hD hD2 hE hE2
    rw [is_enabled_enable_only svc args (enable_flag_strV_truthy svc s hE) hD, hE]
    rw [is_enabled_enable_only svc2 args (enable_flag_strV_truthy svc2 s hE2) hD2, hE2]
    rfl

/-- A service with `enable` set to the string token `tok` and no `disable`. -/
def svcEnableTok : Service :=
  ⟨"p1", { name := "svc1", core := false, enable := FlagVal.strV "tok",
           disable := FlagVal.noneV, dynamic_options := [], wait_for_ports := [],
           props := [] }⟩

def argsEnableTok : String → Bool := fun n => n == "enable_tok"

/-- Witness for C4: the shared-token flag `enable_tok` enables `svcEnableTok`. -/
theorem c4_is_enabled_single_flag_witness :
    svcEnableTok.is_enabled argsEnableTok = true := by
  rw [(c4_is_enabled_single_flag svcEnableTok argsEnableTok).2.1 "tok" rfl rfl]
  decide

/-- The same service with the `disable` key removed from its data dict. -/
def eraseDisable (svc : Service) : Service :=
  ⟨svc.project_name,
   ⟨svc.data.name, svc.data.core, svc.data.enable, FlagVal.noneV,
    svc.data.dynamic_options, svc.data.wait_for_ports, svc.data.props⟩⟩

/-- The same service with the `enable` key removed from its data dict. -/
def eraseEnable (svc : Service) : Service :=
  ⟨svc.project_name,
   ⟨svc.data.name, svc.data.core, FlagVal.noneV, svc.data.disable,
    svc.data.dynamic_options, svc.data.wait_for_ports, svc.data.props⟩⟩

/-- C5: with both `enable` and `disable` configured, `is_enabled` is the
logical OR of what either condition alone would give — it equals `is_enabled`
of the same service with `disable` removed OR `is_enabled` of the same service
with `enable` removed; in particular a passed enable flag forces true even
when the disable flag is also passed. -/
theorem c5_is_enabled_both_flags (svc : Service) (args : String → Bool)
    (hE : pyTruthyFlag svc.enable_flag = true)
    (hD : pyTruthyFlag svc.disable_flag = true) :
    svc.is_enabled args
      = ((eraseDisable svc).is_enabled args || (eraseEnable svc).is_enabled args)
    ∧ (args (svc.get_flag_name svc.enable_flag "enable") = true →
        svc.is_enabled args = true) := by
  have hEd : pyTruthyFlag (eraseDisable svc).enable_flag = true := hE
  have hDd : pyTruthyFlag (eraseEnable svc).disable_flag = true := hD
  have hdisE : (eraseDisable svc).get_flag_value args
      (eraseDisable svc).disable_flag "disable" true = false := rfl
  have henD : (eraseEnable svc).get_flag_value args
      (eraseEnable svc).enable_flag "enable" false = false := rfl
  have hgfE : (eraseDisable svc).get_flag_value args
      (eraseDisable svc).enable_flag "enable" false
      = svc.get_flag_value args svc.enable_flag "enable" false := rfl
  have hgfD : (eraseEnable svc).get_flag_value args
      (eraseEnable svc).disable_flag "disable" true
      = svc.get_flag_value args svc.disable_flag "disable" true := rfl
  have e1 : (eraseDisable svc).is_enabled args
      = svc.get_flag_value args svc.enable_flag "enable" false := by
    unfold Service.is_enabled
    rw [hEd]
    simp [hdisE, hgfE]
  have e2 : (eraseEnable svc).is_enabled args
      = svc.get_flag_value args svc.disable_flag "disable" true := by
    unfold Service.is_enabled
    rw [hDd]
    simp [henD, hgfD]
  have e0 : svc.is_enabled args
      = (svc.get_flag_value args svc.enable_flag "enable" false
        || svc.get_flag_value args svc.disable_flag "disable" true) := by
    unfold Service.is_enabled
    simp [hE]
  refine ⟨?_, ?_⟩
  · rw [e0, e1, e2]
  · intro hArg
    rw [e0]
    unfold Service.get_flag_value
    simp [hE, hArg]

/-- A service with `enable = "e"` and `disable = "d"` both configured. -/
def svcBothFlags : Service :=
  ⟨"p1", { name := "svc2", core := false, enable := FlagVal.strV "e",
           disable := FlagVal.strV "d", dynamic_options := [], wait_for_ports := [],
           props := [] }⟩

/-- Both flags passed: `--enable-e` and `--disable-d`. -/
def argsBothFlags : String → Bool := fun n => n == "enable_e" || n == "disable_d"

/-- Witness for C5: with both flags passed, the enable flag wins and the
service is enabled. -/
theorem c5_is_enabled_both_flags_witness :
    svcBothFlags.is_enabled argsBothFlags = true :=
  (c5_is_enabled_both_flags svcBothFlags argsBothFlags (by decide) (by decide)).2
    (by decide)

/-! ### Lemmas on the reconciler's line matching -/

theorem processLineOption_snd (status : List (Service × Bool)) (line : String)
    (st : RecState) (c : Bool) (e : String × Service) :
    (processLineOption status line (st, c) e).2 = (c || pyIn e.1 line) := by
  unfold processLineOption
  dsimp only
  split
  · next hf => rw [hf]; simp
  · next hf =>
    rw [Bool.not_eq_false] at hf
    rw [hf, Bool.or_true]
    repeat' split
    all_goals rfl

theorem processLineOption_no_match (status : List (Service × Bool)) (line : String)
    (st : RecState) (c : Bool) (e : String × Service) (h : pyIn e.1 line = false) :
    processLineOption status line (st, c) e = (st, c) := by
  unfold processLineOption
  simp [h]

theorem foldl_processLineOption_snd (status : List (Service × Bool)) (line : String) :
    ∀ (entries : List (String × Service)) (st : RecState) (c : Bool),
      (entries.foldl (processLineOption status line) (st, c)).2
        = (c || entries.any (fun e => pyIn e.1 line)) := by
  intro entries
  induction entries with
  | nil => intro st c; simp
  | cons e rest ih =>
    intro st c
    rw [List.foldl_cons]
    rcases hp : processLineOption status line (st, c) e with ⟨st2, c2⟩
    have h2 : c2 = (c || pyIn e.1 line) := by
      have hs := processLineOption_snd status line st c e
      rw [hp] at hs
      exact hs
    rw [ih st2 c2, h2]
    simp [Bool.or_assoc]

theorem foldl_processLineOption_no_match (status : List (Service × Bool)) (line : String) :
    ∀ (entries : List (String × Service)) (st : RecState) (c : Bool),
      (∀ e ∈ entries, pyIn e.1 line = false) →
      entries.foldl (processLineOption status line) (st, c) = (st, c) := by
  intro entries
  induction entries with
  | nil => intro st c _; rfl
  | cons e rest ih =>
    intro st c h
    rw [List.foldl_cons,
      processLineOption_no_match status line st c e (h e (List.mem_cons_self e rest))]
    exact ih st c (fun e2 he2 => h e2 (List.mem_cons_of_mem e he2))

theorem lineStep_pass_through (entries : List (String × Service))
    (status : List (Service × Bool)) (st : RecState) (line : String)
    (h : ∀ e ∈ entries, pyIn e.1 line = false) :
    lineStep entries status st line
      = { st with new_contents := st.new_contents ++ [line] } := by
  unfold lineStep
  rw [foldl_processLineOption_no_match status line entries st false h]
  rfl

/-- C2 (amended): the reconciler treats a line as a dynamic-option line iff
some known option token occurs anywhere in the line as a substring (Python
`in`), not iff the line starts with `TOKEN=`; a line in which no token occurs
as a substring is passed through verbatim. -/
theorem c2_substring_match_semantics (entries : List (String × Service))
    (status : List (Service × Bool)) (st : RecState) (line : String) :
    ((entries.foldl (processLineOption status line) (st, false)).2
      = entries.any (fun e => pyIn e.1 line))
    ∧ ((∀ e ∈ entries, pyIn e.1 line = false) →
      lineStep entries status st line
        = { st with new_contents := st.new_contents ++ [line] }) := by
  constructor
  · have hs := foldl_processLineOption_snd status line entries st false
    simpa using hs
  · intro h
    exact lineStep_pass_through entries status st line h

/-- Witness for C2's amended theorem: the line `X=5` contains no option token
of the one-option configuration and passes through verbatim. -/
theorem c2_substring_match_witness :
    lineStep [("A", svcDynA)] [] ⟨[], false, []⟩ "X=5" = ⟨[] ++ ["X=5"], false, []⟩ :=
  (c2_substring_match_semantics [("A", svcDynA)] [] ⟨[], false, []⟩ "X=5").2 (by decide)

/-! ### Dev-project exclusion in `_generate_docker_compose` -/

theorem foldl_skip_filter {α β : Type} (f : β → α → β) (q : α → Bool)
    (h : ∀ acc a, q a = false → f acc a = acc) :
    ∀ (l : List α) (acc : β), l.foldl f acc = (l.filter q).foldl f acc := by
  intro l
  induction l with
  | nil => intro acc; rfl
  | cons a rest ih =>
    intro acc
    rw [List.foldl_cons]
    by_cases hq : q a = true
    · rw [List.filter_cons_of_pos hq, List.foldl_cons]
      exact ih (f acc a)
    · rw [Bool.not_eq_true] at hq
      rw [h acc a hq, List.filter_cons_of_neg (by rw [hq]; exact Bool.false_ne_true)]
      exact ih acc

/-- C7: the generated `services` mapping never takes an entry from a project in
the dev-project set — building it over all projects equals building it over the
projects whose name is not a dev-project name. -/
theorem c7_dev_projects_excluded (cfg : Cfg) (projects : List Project)
    (dev_project_names : List String) (status : List (Service × Bool))
    (registry tag : String) :
    generate_services cfg projects dev_project_names status registry tag
      = generate_services cfg
          (projects.filter (fun p => !(dev_project_names.contains p.name)))
          dev_project_names status registry tag := by
  unfold generate_services
  apply foldl_skip_filter
  intro acc p hq
  cases hcb : dev_project_names.contains p.name with
  | false => rw [hcb] at hq; simp at hq
  | true => simp [hcb]

/-! ### Dict lemmas for the default-injection proof -/

theorem dictGet_cons {V : Type} (k k2 : String) (v : V) (rest : List (String × V)) :
    dictGet k ((k2, v) :: rest) = if k2 = k then some v else dictGet k rest := rfl

theorem dictGet_insert_self {V : Type} (k : String) (v : V) (d : List (String × V)) :
    dictGet k (dictInsert k v d) = some v := by
  induction d with
  | nil => simp [dictInsert, dictGet]
  | cons kv rest ih =>
    rcases kv with ⟨k2, v2⟩
    unfold dictInsert
    by_cases h : k2 = k
    · simp [h, dictGet]
    · simp [h, dictGet, ih]

theorem dictGet_insert_ne {V : Type} (k k2 : String) (v : V) (d : List (String × V))
    (h : k2 ≠ k) : dictGet k (dictInsert k2 v d) = dictGet k d := by
  induction d with
  | nil =>
    unfold dictInsert
    rw [dictGet_cons, if_neg h]
  | cons kv rest ih =>
    rcases kv with ⟨k3, v3⟩
    unfold dictInsert
    by_cases h3 : k3 = k2
    · subst h3
      rw [if_pos rfl, dictGet_cons, dictGet_cons, if_neg h, if_neg h]
    · rw [if_neg h3, dictGet_cons, dictGet_cons]
      by_cases hk : k3 = k
      · rw [if_pos hk, if_pos hk]
      · rw [if_neg hk, if_neg hk, ih]

theorem dictGet_none_of_not_mem {V : Type} (k : String) (d : List (String × V))
    (h : k ∉ d.map Prod.fst) : dictGet k d = none := by
  induction d with
  | nil => rfl
  | cons kv rest ih =>
    rcases kv with ⟨k2, v2⟩
    rw [List.map_cons, List.mem_cons] at h
    push_neg at h
    have h1 : k2 ≠ k := fun e => h.1 e.symm
    unfold dictGet
    simp only [h1, if_false]
    exact ih h.2

theorem dictGet_foldl_dcDataStep (registry tag k : String)
    (hres : reservedKeys.contains k = false) (h1 : k ≠ "image_path")
    (h2 : k ≠ "image") :
    ∀ (props : List (String × DcVal)) (acc : List (String × DcVal)),
      (props.map Prod.fst).Nodup →
      dictGet k (props.foldl (dcDataStep registry tag) acc)
        = (match dictGet k props with
           | some v => some v
           | none => dictGet k acc) := by
  intro props
  induction props with
  | nil => intro acc _; rfl
  | cons kv rest ih =>
    intro acc hnodup
    rcases kv with ⟨k2, v2⟩
    rw [List.map_cons, List.nodup_cons] at hnodup
    have hk2rest : k2 ∉ rest.map Prod.fst := hnodup.1
    have hrest : (rest.map Prod.fst).Nodup := hnodup.2
    rw [List.foldl_cons]
    by_cases hr : reservedKeys.contains k2 = true
    · have hne : k2 ≠ k := by
        intro e
        subst e
        rw [hr] at hres
        exact absurd hres (by simp)
      have hstep : dcDataStep registry tag acc (k2, v2) = acc := by
        unfold dcDataStep
        dsimp only
        rw [if_pos hr]
      rw [hstep, dictGet_cons, if_neg hne]
      exact ih acc hrest
    · rw [Bool.not_eq_true] at hr
      by_cases hip : k2 = "image_path"
      · have hne : k2 ≠ k := by rw [hip]; exact fun e => h1 e.symm
        have hstep : dcDataStep registry tag acc (k2, v2)
            = dictInsert "image"
                (DcVal.strV (registry ++ dcValStr v2 ++ ":" ++ tag)) acc := by
          unfold dcDataStep
          dsimp only
          rw [hr, if_neg Bool.false_ne_true, if_pos hip]
        rw [hstep, dictGet_cons, if_neg hne, ih _ hrest]
        rw [dictGet_insert_ne k "image" _ acc (fun e => h2 e.symm)]
      · have hstep : dcDataStep registry tag acc (k2, v2) = dictInsert k2 v2 acc := by
          unfold dcDataStep
          dsimp only
          rw [hr, if_neg Bool.false_ne_true, if_neg hip]
        rw [hstep]
        by_cases hk : k2 = k
        · subst hk
          rw [dictGet_cons, if_pos rfl, ih _ hrest,
            dictGet_none_of_not_mem k2 rest hk2rest, dictGet_insert_self]
        · rw [dictGet_cons, if_neg hk, ih _ hrest, dictGet_insert_ne k k2 v2 acc hk]

/-- `env_file`/`networks`-style lookups pass through `get_dc_data` untouched:
for a non-reserved key other than `image_path`, `image` and `container_name`,
the built data has exactly the service's own value for that key. -/
theorem dictGet_get_dc_data (cfg : Cfg) (svc : Service) (registry tag k : String)
    (hres : reservedKeys.contains k = false) (h1 : k ≠ "image_path")
    (h2 : k ≠ "image") (h3 : k ≠ "container_name")
    (hnodup : (svc.data.props.map Prod.fst).Nodup) :
    dictGet k (svc.get_dc_data cfg registry tag) = dictGet k svc.data.props := by
  unfold Service.get_dc_data
  rw [dictGet_foldl_dcDataStep registry tag k hres h1 h2 svc.data.props _ hnodup]
  have hc : dictGet k [("container_name", DcVal.strV (svc.container_name cfg))]
      = none := by
    rw [dictGet_cons, if_neg (fun e => h3 e.symm)]
    rfl
  rw [hc]
  cases hq : dictGet k svc.data.props with
  | none => rfl
  | some v => rfl

theorem dictGet_env_file_build_entry (cfg : Cfg) (svc : Service)
    (registry tag : String) :
    dictGet "env_file" (build_entry cfg svc registry tag)
      = (match dictGet "env_file" (svc.get_dc_data cfg registry tag) with
         | some v => some v
         | none => some (DcVal.listV ["./docker-compose.env"])) := by
  simp only [build_entry, dictContains]
  by_cases hv : (dictGet "env_file" (svc.get_dc_data cfg registry tag)).isSome = true
  · obtain ⟨v, hval⟩ := Option.isSome_iff_exists.mp hv
    rw [if_pos hv, hval]
    by_cases hn : (dictGet "networks" (svc.get_dc_data cfg registry tag)).isSome = true
    · rw [if_pos hn]
      exact hval
    · rw [if_neg hn, dictGet_insert_ne "env_file" "networks" _ _ (by decide)]
      exact hval
  · have hval : dictGet "env_file" (svc.get_dc_data cfg registry tag) = none :=
      Option.not_isSome_iff_eq_none.mp hv
    rw [if_neg hv, hval]
    by_cases hn : (dictGet "networks"
        (dictInsert "env_file" (DcVal.listV ["./docker-compose.env"])
          (svc.get_dc_data cfg registry tag))).isSome = true
    · rw [if_pos hn, dictGet_insert_self]
    · rw [if_neg hn,
        dictGet_insert_ne "env_file" "networks" _ _ (by decide),
        dictGet_insert_self]

theorem dictGet_networks_build_entry (cfg : Cfg) (svc : Service)
    (registry tag : String) :
    dictGet "networks" (build_entry cfg svc registry tag)
      = (match dictGet "networks" (svc.get_dc_data cfg registry tag) with
         | some v => some v
         | none => some (DcVal.listV [cfg.network])) := by
  simp only [build_entry, dictContains]
  have hpass : dictGet "networks"
      (dictInsert "env_file" (DcVal.listV ["./docker-compose.env"])
        (svc.get_dc_data cfg registry tag))
      = dictGet "networks" (svc.get_dc_data cfg registry tag) :=
    dictGet_insert_ne "networks" "env_file" _ _ (by decide)
  by_cases he : (dictGet "env_file" (svc.get_dc_data cfg registry tag)).isSome = true
  · rw [if_pos he]
    by_cases hn : (dictGet "networks" (svc.get_dc_data cfg registry tag)).isSome = true
    · obtain ⟨v, hval⟩ := Option.isSome_iff_exists.mp hn
      rw [if_pos hn, hval]
    · have hval : dictGet "networks" (svc.get_dc_data cfg registry tag) = none :=
        Option.not_isSome_iff_eq_none.mp hn
      rw [if_neg hn, hval, dictGet_insert_self]
  · rw [if_neg he, hpass]
    by_cases hn : (dictGet "networks" (svc.get_dc_data cfg registry tag)).isSome = true
    · obtain ⟨v, hval⟩ := Option.isSome_iff_exists.mp hn
      rw [if_pos hn, hpass, hval]
    · have hval : dictGet "networks" (svc.get_dc_data cfg registry tag) = none :=
        Option.not_isSome_iff_eq_none.mp hn
      rw [if_neg hn, hval, dictGet_insert_self]

/-- C8: the composed entry of an included service gets the default
environment-file reference (`['./docker-compose.env']`) and the default
network membership (`[network]`) exactly when the service's own pass-through
properties omit the `env_file` / `networks` key; a declared value appears
unmodified in the entry. -/
theorem c8_default_injection (cfg : Cfg) (svc : Service) (registry tag : String)
    (hnodup : (svc.data.props.map Prod.fst).Nodup) :
    (dictGet "env_file" svc.data.props = none →
      dictGet "env_file" (build_entry cfg svc registry tag)
        = some (DcVal.listV ["./docker-compose.env"]))
    ∧ (∀ v, dictGet "env_file" svc.data.props = some v →
      dictGet "env_file" (build_entry cfg svc registry tag) = some v)
    ∧ (dictGet "networks" svc.data.props = none →
      dictGet "networks" (build_entry cfg svc registry tag)
        = some (DcVal.listV [cfg.network]))
    ∧ (∀ v, dictGet "networks" svc.data.props = some v →
      dictGet "networks" (build_entry cfg svc registry tag) = some v) := by
  have hEnv : dictGet "env_file" (svc.get_dc_data cfg registry tag)
      = dictGet "env_file" svc.data.props :=
    dictGet_get_dc_data cfg svc registry tag "env_file" (by decide) (by decide)
      (by decide) (by decide) hnodup
  have hNet : dictGet "networks" (svc.get_dc_data cfg registry tag)
      = dictGet "networks" svc.data.props :=
    dictGet_get_dc_data cfg svc registry tag "networks" (by decide) (by decide)
      (by decide) (by decide) hnodup
  refine ⟨?_, ?_, ?_, ?_⟩
  · intro h
    rw [dictGet_env_file_build_entry, hEnv, h]
  · intro v h
    rw [dictGet_env_file_build_entry, hEnv, h]
  · intro h
    rw [dictGet_networks_build_entry, hNet, h]
  · intro v h
    rw [dictGet_networks_build_entry, hNet, h]

/-- A service that declares its own `env_file` but no `networks`. -/
def svcOwnEnvFile : Service :=
  ⟨"p1", { name := "svc3", core := false, enable := FlagVal.noneV,
           disable := FlagVal.noneV, dynamic_options := [], wait_for_ports := [],
           props := [("image", DcVal.strV "img:1"),
                     ("env_file", DcVal.listV ["./custom.env"])] }⟩

/-- Witness for C8: the declared `env_file` passes through unmodified and the
omitted `networks` receives the default. -/
theorem c8_default_injection_witness :
    dictGet "env_file" (build_entry ⟨"core_", "svc_", "net1"⟩ svcOwnEnvFile "reg/" "latest")
      = some (DcVal.listV ["./custom.env"])
    ∧ dictGet "networks" (build_entry ⟨"core_", "svc_", "net1"⟩ svcOwnEnvFile "reg/" "latest")
      = some (DcVal.listV ["net1"]) := by
  constructor
  · exact (c8_default_injection ⟨"core_", "svc_", "net1"⟩ svcOwnEnvFile "reg/" "latest"
      (by decide)).2.1 (DcVal.listV ["./custom.env"]) (by decide)
  · exact (c8_default_injection ⟨"core_", "svc_", "net1"⟩ svcOwnEnvFile "reg/" "latest"
      (by decide)).2.2.1 (by decide)

/-! ### The staged-startup guard of `_run_docker_compose_with_projects` -/

theorem stagedUpCheck_true_of (docker_compose_args : List String)
    (h1 : docker_compose_args.contains "up" = true)
    (h2 : ∀ a ∈ docker_compose_args, pyStartsWith a "-" = true ∨ a = "up") :
    stagedUpCheck docker_compose_args = true := by
  unfold stagedUpCheck
  rw [h1, Bool.true_and, List.all_eq_true]
  intro a ha
  rcases h2 a ha with h | h
  · rw [h, Bool.true_or]
  · subst h
    decide

theorem stagedUpCheck_false_of_positional (docker_compose_args : List String)
    (a : String) (ha : a ∈ docker_compose_args)
    (h1 : pyStartsWith a "-" = false) (h2 : a ≠ "up") :
    stagedUpCheck docker_compose_args = false := by
  unfold stagedUpCheck
  have hall : docker_compose_args.all
      (fun arg => pyStartsWith arg "-" || arg == "up") = false := by
    cases hcase : docker_compose_args.all
        (fun arg => pyStartsWith arg "-" || arg == "up") with
    | false => rfl
    | true =>
      exfalso
      have hp := List.all_eq_true.mp hcase a ha
      rw [h1, Bool.false_or, beq_iff_eq] at hp
      exact h2 hp
  rw [hall, Bool.and_false]

theorem stagedUpCheck_false_of_no_up (docker_compose_args : List String)
    (h : docker_compose_args.contains "up" = false) :
    stagedUpCheck docker_compose_args = false := by
  unfold stagedUpCheck
  rw [h, Bool.false_and]

/-- C6: the Startup Sequencer takes the staged path iff the docker-compose
argument list contains `up` and every token is `up` or starts with `-`. On the
staged path the first external step is one invocation whose service scope is
exactly the enabled core services (with `--detach` forced unless already
present), followed by a readiness wait per enabled core service and at least
one later stage; a positional service-name argument (or the absence of `up`)
yields exactly one direct invocation of the arguments as given. -/
theorem c6_staged_up_detection (cfg : Cfg) (dcProject dcPath : String)
    (projects dev_projects : List Project) (projectPath : Project → String)
    (args : String → Bool) (docker_compose_args : List String)
    (readServices : String → List String) :
    ((docker_compose_args.contains "up" = true
        ∧ ∀ a ∈ docker_compose_args, pyStartsWith a "-" = true ∨ a = "up") →
      ∃ rest,
        run_docker_compose_with_projects cfg dcProject dcPath projects dev_projects
            projectPath args docker_compose_args readServices
          = DcStep.invoke
              ((if !((baseComposeCommands dcProject dcPath dev_projects projectPath
                        docker_compose_args).contains "--detach")
                  && !((baseComposeCommands dcProject dcPath dev_projects projectPath
                        docker_compose_args).contains "-d") then
                  baseComposeCommands dcProject dcPath dev_projects projectPath
                    docker_compose_args ++ ["--detach"]
                else
                  baseComposeCommands dcProject dcPath dev_projects projectPath
                    docker_compose_args)
                ++ ((Service.find_all_core projects true).filter
                      (fun svc => svc.is_enabled args)).map (fun svc => svc.dc_name cfg))
            :: ((Service.find_all_core projects true).filter
                  (fun svc => svc.is_enabled args)).map DcStep.waitForPorts
            ++ rest
          ∧ rest ≠ [])
    ∧ ((∃ a ∈ docker_compose_args, pyStartsWith a "-" = false ∧ a ≠ "up") →
      run_docker_compose_with_projects cfg dcProject dcPath projects dev_projects
          projectPath args docker_compose_args readServices
        = [DcStep.invoke (baseComposeCommands dcProject dcPath dev_projects
            projectPath docker_compose_args)])
    ∧ (docker_compose_args.contains "up" = false →
      run_docker_compose_with_projects cfg dcProject dcPath projects dev_projects
          projectPath args docker_compose_args readServices
        = [DcStep.invoke (baseComposeCommands dcProject dcPath dev_projects
            projectPath docker_compose_args)]) := by
  refine ⟨?_, ?_, ?_⟩
  · intro h
    have hguard := stagedUpCheck_true_of docker_compose_args h.1 h.2
    unfold run_docker_compose_with_projects
    rw [hguard, if_pos rfl]
    dsimp only
    by_cases hdev : dev_projects.isEmpty = true
    · rw [hdev, Bool.not_true, if_neg Bool.false_ne_true]
      exact ⟨_, rfl, by simp⟩
    · rw [Bool.not_eq_true] at hdev
      rw [hdev, Bool.not_false, if_pos rfl]
      exact ⟨_, rfl, by simp⟩
  · intro h
    obtain ⟨a, ha, h1, h2⟩ := h
    have hguard := stagedUpCheck_false_of_positional docker_compose_args a ha h1 h2
    unfold run_docker_compose_with_projects
    rw [hguard, if_neg Bool.false_ne_true]
  · intro h
    have hguard := stagedUpCheck_false_of_no_up docker_compose_args h
    unfold run_docker_compose_with_projects
    rw [hguard, if_neg Bool.false_ne_true]

/-- Witness for C6: a `config` invocation (positional non-`up` token) produces
one direct call with the arguments as given. -/
theorem c6_staged_up_detection_witness :
    run_docker_compose_with_projects ⟨"core_", "svc_", "net"⟩ "proj" "dc.yml" [] []
        (fun _ => "") (fun _ => false) ["config"] (fun _ => [])
      = [DcStep.invoke (baseComposeCommands "proj" "dc.yml" [] (fun _ => "")
          ["config"])] :=
  (c6_staged_up_detection ⟨"core_", "svc_", "net"⟩ "proj" "dc.yml" [] []
      (fun _ => "") (fun _ => false) ["config"] (fun _ => [])).2.1
    ⟨"config", by simp, by decide, by decide⟩
